import Mathlib

/-!
Verification of the AURORA power-calculator engine.

The repository contains two copies of the calculation engine:
* `src/src/App.js` (embedded below in namespace `App`);
* `src/unnamed/part_000` (embedded in namespace `P0`), which additionally
  carries a `clusterSizeCV` parameter whose `(1 + cv²)` factor enters the
  two design effects.

Numbers are embedded as exact rationals (`ℚ`); square roots force the final
MDE values into `ℝ`.  JavaScript's `Math.round` is `⌊x + 1/2⌋`.
-/

/-- JavaScript `Math.round`: round half toward positive infinity. -/
def jsRound (x : ℚ) : ℤ := ⌊x + 1/2⌋

/-- Measurement model selector: "sum" | "rasch" | "mfrm" in the source. -/
inductive MeasurementModel
  | sum
  | rasch
  | mfrm
deriving DecidableEq

/-- The trial-design parameters held in React state by both implementations.
`clusterSizeCV` exists only in the `part_000` implementation; the `App.js`
functions simply never read it. -/
structure Params where
  power : ℚ
  alpha : ℚ
  iccHamd : ℚ
  iccRetention : ℚ
  r2Hamd : ℚ
  r2Retention : ℚ
  patientsPerCluster : ℚ
  clusterSizeCV : ℚ
  controlAttrition : ℚ
  treatmentRatio : ℚ
  measurementModel : MeasurementModel
  sumScoreReliability : ℚ
  raschReliability : ℚ
  raterVarianceProp : ℚ
  targetIcc : ℚ
  expectedIcc : ℚ
  iccClusterCorr : ℚ
  nFollowups : ℚ
  survivalEfficiency : ℚ

/-- Default configuration (the `useState` initial values of `App.js`, equal to
the `defaults` object of `part_000` with `clusterSizeCV = 0`). -/
def defaultParams : Params where
  power := 0.8
  alpha := 0.025
  iccHamd := 0.04
  iccRetention := 0.05
  r2Hamd := 0.35
  r2Retention := 0.05
  patientsPerCluster := 10
  clusterSizeCV := 0
  controlAttrition := 0.3
  treatmentRatio := 3
  measurementModel := MeasurementModel.sum
  sumScoreReliability := 0.86
  raschReliability := 0.91
  raterVarianceProp := 0.07
  targetIcc := 0.75
  expectedIcc := 0.8
  iccClusterCorr := 0.03
  nFollowups := 4
  survivalEfficiency := 4.0

/-- Source: `useRasch = measurementModel === "rasch" || measurementModel === "mfrm"`. -/
def useRasch (p : Params) : Bool :=
  p.measurementModel = MeasurementModel.rasch ∨ p.measurementModel = MeasurementModel.mfrm

/-- Source: `useMFRM = measurementModel === "mfrm"`. -/
def useMFRM (p : Params) : Bool :=
  p.measurementModel = MeasurementModel.mfrm

/-- Source: the `z[alpha] || 2.24` lookup (identical in both files).
Two-tailed z for alpha; object lookup misses fall back to `2.24`. -/
def zAlpha (alpha : ℚ) : ℚ :=
  if alpha = 0.05 then 1.96
  else if alpha = 0.025 then 2.24
  else if alpha = 0.01 then 2.58
  else 2.24

/-- Source: the `z[power] || 0.842` lookup (identical in both files). -/
def zBeta (power : ℚ) : ℚ :=
  if power = 0.7 then 0.524
  else if power = 0.75 then 0.674
  else if power = 0.8 then 0.842
  else if power = 0.85 then 1.036
  else if power = 0.9 then 1.282
  else 0.842

/-- Source: `measurementVarianceMultiplier` (identical in both files).
Rational-field division makes `x / 0 = 0`, so at `sumScoreReliability = 1`
this total function returns `1` where the JavaScript float computation
produces `NaN`; `measurementVarianceMultiplierJS` below models that case. -/
def measurementVarianceMultiplier (p : Params) : ℚ :=
  let sumScoreError : ℚ := 1 - p.sumScoreReliability
  let raschError : ℚ := 1 - p.raschReliability
  let errorReduction : ℚ := (sumScoreError - raschError) / sumScoreError
  let afterRasch : ℚ :=
    if useRasch p then 1 * (1 - errorReduction * sumScoreError) else 1
  if useMFRM p then afterRasch * (1 - p.raterVarianceProp) else afterRasch

/-- The same computation under JavaScript float semantics for the division:
when `useRasch` and `sumScoreError = 0`, `errorReduction` is `±Infinity` or
`NaN` (`(0 - raschError) / 0`), and `1 - errorReduction * 0` is `NaN`; the
undefined outcome is modelled as `none`.  Otherwise the float and rational
computations agree on the formula shape and the value is `some`. -/
def measurementVarianceMultiplierJS (p : Params) : Option ℚ :=
  if useRasch p ∧ 1 - p.sumScoreReliability = 0 then none
  else some (measurementVarianceMultiplier p)

/-- Result record of `calcHamdMDE` (field names from the source). -/
@[ext]
structure HamdResult where
  mde : ℝ
  baselineMDE : ℝ
  effectSize : ℝ
  nClusters : ℤ
  nTreatmentClusters : ℤ
  nControlClusters : ℤ
  nCompleters : ℤ
  varianceReduction : ℚ

/-- Result record of `calcRetentionMDE` (field names from the source). -/
@[ext]
structure RetentionResult where
  mde : ℝ
  controlRate : ℚ
  treatmentRate : ℝ
  nClusters : ℤ
  binaryMDE : ℝ

/-- Result record of `calcIccValidation` (field names from the source). -/
@[ext]
structure IccValidationResult where
  nTreatmentPatients : ℤ
  nTreatmentClusters : ℤ
  nObservations : ℤ
  nEffective : ℤ
  seIcc : ℝ
  ciHalfWidth : ℝ
  lowerBound : ℝ
  upperBound : ℝ
  canRuleOutPoor : Prop

/-- One element of the `powerData` array (field names from the source). -/
structure CurvePoint where
  n : ℤ
  clusters : ℤ
  hamdMDE : ℝ
  hamdBaselineMDE : ℝ
  hamdD : ℝ
  retentionMDE : ℝ
  retentionTreatment : ℝ
  iccCiWidth : ℝ
  iccLowerBound : ℝ

/-- Result of `findNForMDE`: either a grid point, or the string sentinel
`">1300"` meaning the target is unreachable within the scanned range. -/
inductive FindNResult
  | n (value : ℤ)
  | exceedsRange
deriving DecidableEq

/-- Fuel-measured embedding of the `for (let n = n0; n <= nMax; n += step)`
loop body collecting the loop variable.  The fuel only bounds the recursion;
for a positive step it is never exhausted before the loop condition fails. -/
def forRangeAux (nMax step : ℤ) : ℕ → ℤ → List ℤ
  | 0, _ => []
  | fuel + 1, n => if n ≤ nMax then n :: forRangeAux nMax step fuel (n + step) else []

/-- The values taken by the loop variable of `for (let n = n0; n <= nMax; n += step)`. -/
def forRange (n0 nMax step : ℤ) : List ℤ :=
  forRangeAux nMax step ((nMax + 1 - n0).toNat + 1) n0

namespace App

/-- Source: `App.js` line 98: `nClusters = Math.round(totalN / patientsPerCluster)`
(the same line opens all three calculators). -/
def nClusters (p : Params) (totalN : ℚ) : ℤ :=
  jsRound (totalN / p.patientsPerCluster)

/-- Source: `treatmentProportion = treatmentRatio / (treatmentRatio + 1)`. -/
def treatmentProportion (p : Params) : ℚ :=
  p.treatmentRatio / (p.treatmentRatio + 1)

/-- Source: `nTreatmentClusters = Math.round(nClusters * treatmentProportion)`. -/
def nTreatmentClusters (p : Params) (totalN : ℚ) : ℤ :=
  jsRound ((nClusters p totalN : ℚ) * treatmentProportion p)

/-- Source: `nControlClusters = nClusters - nTreatmentClusters`. -/
def nControlClusters (p : Params) (totalN : ℚ) : ℤ :=
  nClusters p totalN - nTreatmentClusters p totalN

/-- Source: `nTreatmentPatients = nTreatmentClusters * patientsPerCluster * (1 - controlAttrition)`. -/
def nTreatmentPatients (p : Params) (totalN : ℚ) : ℚ :=
  (nTreatmentClusters p totalN : ℚ) * p.patientsPerCluster * (1 - p.controlAttrition)

/-- Source: `nControlPatients = nControlClusters * patientsPerCluster * (1 - controlAttrition)`. -/
def nControlPatients (p : Params) (totalN : ℚ) : ℚ :=
  (nControlClusters p totalN : ℚ) * p.patientsPerCluster * (1 - p.controlAttrition)

/-- Harmonic mean of completers. -/
def nHarmonic (p : Params) (totalN : ℚ) : ℚ :=
  2 * nTreatmentPatients p totalN * nControlPatients p totalN /
    (nTreatmentPatients p totalN + nControlPatients p totalN)

/-- Source: `sigma2 = 49 // SD = 7`. -/
def sigma2 : ℚ := 49

/-- Source: `sigma2Adj = sigma2 * (1 - r2Hamd)`. -/
def sigma2Adj (p : Params) : ℚ := sigma2 * (1 - p.r2Hamd)

/-- Source: `clusterSize = patientsPerCluster * (1 - controlAttrition)` (after attrition). -/
def clusterSize (p : Params) : ℚ :=
  p.patientsPerCluster * (1 - p.controlAttrition)

/-- Source: `App.js` line 120: `designEffect = 1 + (clusterSize - 1) * iccHamd`
(no cluster-size-CV factor in this implementation). -/
def hamdDesignEffect (p : Params) : ℚ :=
  1 + (clusterSize p - 1) * p.iccHamd

/-- Source: `ipcwVIF = 1.2`. -/
def ipcwVIF : ℚ := 1.2

/-- Source: `repeatedMeasuresGain = 1.43`. -/
def repeatedMeasuresGain : ℚ := 1.43

/-- Source: `baseVariance = sigma2Adj * designEffect * ipcwVIF / repeatedMeasuresGain`. -/
def baseVariance (p : Params) : ℚ :=
  sigma2Adj p * hamdDesignEffect p * ipcwVIF / repeatedMeasuresGain

/-- Source: `netVariance = baseVariance * measurementVarianceMultiplier`. -/
def netVariance (p : Params) : ℚ :=
  baseVariance p * measurementVarianceMultiplier p

/-- Source: `mde = (zAlpha + zBeta) * Math.sqrt(2 * netVariance / nHarmonic)`. -/
noncomputable def hamdMDE (p : Params) (totalN : ℚ) : ℝ :=
  ((zAlpha p.alpha + zBeta p.power : ℚ) : ℝ) *
    Real.sqrt ((2 * netVariance p / nHarmonic p totalN : ℚ) : ℝ)

/-- Source: `baselineMDE = (zAlpha + zBeta) * Math.sqrt(2 * baseVariance / nHarmonic)`. -/
noncomputable def hamdBaselineMDE (p : Params) (totalN : ℚ) : ℝ :=
  ((zAlpha p.alpha + zBeta p.power : ℚ) : ℝ) *
    Real.sqrt ((2 * baseVariance p / nHarmonic p totalN : ℚ) : ℝ)

/-- Source: `App.js` lines 97-152: `calcHamdMDE(totalN)`. -/
noncomputable def calcHamdMDE (p : Params) (totalN : ℚ) : HamdResult where
  mde := hamdMDE p totalN
  baselineMDE := hamdBaselineMDE p totalN
  effectSize := hamdMDE p totalN / 7
  nClusters := nClusters p totalN
  nTreatmentClusters := nTreatmentClusters p totalN
  nControlClusters := nControlClusters p totalN
  nCompleters := jsRound (nTreatmentPatients p totalN + nControlPatients p totalN)
  varianceReduction := (1 - measurementVarianceMultiplier p) * 100

/-- Source: `nTreatment = nTreatmentClusters * patientsPerCluster` (retention, no attrition). -/
def nTreatment (p : Params) (totalN : ℚ) : ℚ :=
  (nTreatmentClusters p totalN : ℚ) * p.patientsPerCluster

/-- Source: `nControl = nControlClusters * patientsPerCluster`. -/
def nControl (p : Params) (totalN : ℚ) : ℚ :=
  (nControlClusters p totalN : ℚ) * p.patientsPerCluster

/-- Source: `App.js` line 167: `designEffect = 1 + (patientsPerCluster - 1) * iccRetention`. -/
def retentionDesignEffect (p : Params) : ℚ :=
  1 + (p.patientsPerCluster - 1) * p.iccRetention

/-- Source: `baseSE = Math.sqrt(p0 * (1 - p0) * (1/nTreatment + 1/nControl))` with `p0 = controlAttrition`. -/
noncomputable def baseSE (p : Params) (totalN : ℚ) : ℝ :=
  Real.sqrt ((p.controlAttrition * (1 - p.controlAttrition) *
    (1 / nTreatment p totalN + 1 / nControl p totalN) : ℚ) : ℝ)

/-- Source: `clusteredSE = baseSE * Math.sqrt(designEffect)`. -/
noncomputable def clusteredSE (p : Params) (totalN : ℚ) : ℝ :=
  baseSE p totalN * Real.sqrt ((retentionDesignEffect p : ℚ) : ℝ)

/-- Source: `adjustedSE = clusteredSE * Math.sqrt(1 - r2Retention)`. -/
noncomputable def adjustedSE (p : Params) (totalN : ℚ) : ℝ :=
  clusteredSE p totalN * Real.sqrt ((1 - p.r2Retention : ℚ) : ℝ)

/-- Source: `survivalSE = adjustedSE / Math.sqrt(survivalEfficiency)`. -/
noncomputable def survivalSE (p : Params) (totalN : ℚ) : ℝ :=
  adjustedSE p totalN / Real.sqrt ((p.survivalEfficiency : ℚ) : ℝ)

/-- Source: `mde = (zAlpha + zBeta) * survivalSE` (as a proportion, before the ×100). -/
noncomputable def retentionMDE (p : Params) (totalN : ℚ) : ℝ :=
  ((zAlpha p.alpha + zBeta p.power : ℚ) : ℝ) * survivalSE p totalN

/-- Source: `App.js` lines 157-193: `calcRetentionMDE(totalN)`. -/
noncomputable def calcRetentionMDE (p : Params) (totalN : ℚ) : RetentionResult where
  mde := retentionMDE p totalN * 100
  controlRate := p.controlAttrition * 100
  treatmentRate := ((p.controlAttrition : ℝ) - retentionMDE p totalN) * 100
  nClusters := nClusters p totalN
  binaryMDE := ((zAlpha p.alpha + zBeta p.power : ℚ) : ℝ) * adjustedSE p totalN * 100

/-- Source: `nObservations = nTreatmentPatients * nFollowups`. -/
def nObservations (p : Params) (totalN : ℚ) : ℚ :=
  nTreatmentPatients p totalN * p.nFollowups

/-- Source: `avgObsPerCluster = nObservations / nTreatmentClusters`. -/
def avgObsPerCluster (p : Params) (totalN : ℚ) : ℚ :=
  nObservations p totalN / (nTreatmentClusters p totalN : ℚ)

/-- Source: `designEffect = 1 + (avgObsPerCluster - 1) * iccClusterCorr`. -/
def iccDesignEffect (p : Params) (totalN : ℚ) : ℚ :=
  1 + (avgObsPerCluster p totalN - 1) * p.iccClusterCorr

/-- Source: `nEffective = nObservations / designEffect`. -/
def nEffective (p : Params) (totalN : ℚ) : ℚ :=
  nObservations p totalN / iccDesignEffect p totalN

/-- Source: `seIcc = (1 - expectedIcc * expectedIcc) * Math.sqrt(2 / (nEffective - 1))`. -/
noncomputable def seIcc (p : Params) (totalN : ℚ) : ℝ :=
  ((1 - p.expectedIcc * p.expectedIcc : ℚ) : ℝ) *
    Real.sqrt ((2 / (nEffective p totalN - 1) : ℚ) : ℝ)

/-- Source: `ciHalfWidth = 1.96 * seIcc`. -/
noncomputable def ciHalfWidth (p : Params) (totalN : ℚ) : ℝ :=
  1.96 * seIcc p totalN

/-- Source: `lowerBound = expectedIcc - ciHalfWidth`. -/
noncomputable def lowerBound (p : Params) (totalN : ℚ) : ℝ :=
  (p.expectedIcc : ℝ) - ciHalfWidth p totalN

/-- Source: `App.js` lines 197-242: `calcIccValidation(totalN)` (treatment arm only). -/
noncomputable def calcIccValidation (p : Params) (totalN : ℚ) : IccValidationResult where
  nTreatmentPatients := jsRound (nTreatmentPatients p totalN)
  nTreatmentClusters := nTreatmentClusters p totalN
  nObservations := jsRound (nObservations p totalN)
  nEffective := jsRound (nEffective p totalN)
  seIcc := seIcc p totalN
  ciHalfWidth := ciHalfWidth p totalN
  lowerBound := lowerBound p totalN
  upperBound := (p.expectedIcc : ℝ) + ciHalfWidth p totalN
  canRuleOutPoor := lowerBound p totalN > (p.targetIcc : ℝ)

/-- Source: `App.js` lines 245-263: the `powerData` sweep `for (let n = 400; n <= 1300; n += 50)`. -/
noncomputable def powerData (p : Params) : List CurvePoint :=
  (forRange 400 1300 50).map (fun n =>
    { n := n
      clusters := (calcHamdMDE p (n : ℚ)).nClusters
      hamdMDE := (calcHamdMDE p (n : ℚ)).mde
      hamdBaselineMDE := (calcHamdMDE p (n : ℚ)).baselineMDE
      hamdD := (calcHamdMDE p (n : ℚ)).effectSize
      retentionMDE := (calcRetentionMDE p (n : ℚ)).mde
      retentionTreatment := (calcRetentionMDE p (n : ℚ)).treatmentRate
      iccCiWidth := (calcIccValidation p (n : ℚ)).ciHalfWidth * 2
      iccLowerBound := (calcIccValidation p (n : ℚ)).lowerBound })

end App

namespace P0

/-- Source: `part_000` line 257: `nClusters = Math.round(totalN / patientsPerCluster)`. -/
def nClusters (p : Params) (totalN : ℚ) : ℤ :=
  jsRound (totalN / p.patientsPerCluster)

/-- Source: `treatmentProportion = treatmentRatio / (treatmentRatio + 1)`. -/
def treatmentProportion (p : Params) : ℚ :=
  p.treatmentRatio / (p.treatmentRatio + 1)

/-- Source: `nTreatmentClusters = Math.round(nClusters * treatmentProportion)`. -/
def nTreatmentClusters (p : Params) (totalN : ℚ) : ℤ :=
  jsRound ((nClusters p totalN : ℚ) * treatmentProportion p)

/-- Source: `nControlClusters = nClusters - nTreatmentClusters`. -/
def nControlClusters (p : Params) (totalN : ℚ) : ℤ :=
  nClusters p totalN - nTreatmentClusters p totalN

/-- Source: `nTreatmentPatients = nTreatmentClusters * patientsPerCluster * (1 - controlAttrition)`. -/
def nTreatmentPatients (p : Params) (totalN : ℚ) : ℚ :=
  (nTreatmentClusters p totalN : ℚ) * p.patientsPerCluster * (1 - p.controlAttrition)

/-- Source: `nControlPatients = nControlClusters * patientsPerCluster * (1 - controlAttrition)`. -/
def nControlPatients (p : Params) (totalN : ℚ) : ℚ :=
  (nControlClusters p totalN : ℚ) * p.patientsPerCluster * (1 - p.controlAttrition)

/-- Harmonic mean of completers. -/
def nHarmonic (p : Params) (totalN : ℚ) : ℚ :=
  2 * nTreatmentPatients p totalN * nControlPatients p totalN /
    (nTreatmentPatients p totalN + nControlPatients p totalN)

/-- Source: `sigma2 = 49 // SD = 7`. -/
def sigma2 : ℚ := 49

/-- Source: `sigma2Adj = sigma2 * (1 - r2Hamd)`. -/
def sigma2Adj (p : Params) : ℚ := sigma2 * (1 - p.r2Hamd)

/-- Source: `clusterSize = patientsPerCluster * (1 - controlAttrition)` (after attrition). -/
def clusterSize (p : Params) : ℚ :=
  p.patientsPerCluster * (1 - p.controlAttrition)

/-- Source: `part_000` lines 279-280: `designEffect = (1 + (clusterSize - 1) * iccHamd) *
(1 + clusterSizeCV * clusterSizeCV)` — adjusted for unequal cluster sizes. -/
def hamdDesignEffect (p : Params) : ℚ :=
  (1 + (clusterSize p - 1) * p.iccHamd) * (1 + p.clusterSizeCV * p.clusterSizeCV)

/-- Source: `ipcwVIF = 1.2`. -/
def ipcwVIF : ℚ := 1.2

/-- Source: `repeatedMeasuresGain = 1.43`. -/
def repeatedMeasuresGain : ℚ := 1.43

/-- Source: `baseVariance = sigma2Adj * designEffect * ipcwVIF / repeatedMeasuresGain`. -/
def baseVariance (p : Params) : ℚ :=
  sigma2Adj p * hamdDesignEffect p * ipcwVIF / repeatedMeasuresGain

/-- Source: `netVariance = baseVariance * measurementVarianceMultiplier`. -/
def netVariance (p : Params) : ℚ :=
  baseVariance p * measurementVarianceMultiplier p

/-- Source: `mde = (zAlpha + zBeta) * Math.sqrt(2 * netVariance / nHarmonic)`. -/
noncomputable def hamdMDE (p : Params) (totalN : ℚ) : ℝ :=
  ((zAlpha p.alpha + zBeta p.power : ℚ) : ℝ) *
    Real.sqrt ((2 * netVariance p / nHarmonic p totalN : ℚ) : ℝ)

/-- Source: `baselineMDE = (zAlpha + zBeta) * Math.sqrt(2 * baseVariance / nHarmonic)`. -/
noncomputable def hamdBaselineMDE (p : Params) (totalN : ℚ) : ℝ :=
  ((zAlpha p.alpha + zBeta p.power : ℚ) : ℝ) *
    Real.sqrt ((2 * baseVariance p / nHarmonic p totalN : ℚ) : ℝ)

/-- Source: `part_000` lines 256-312: `calcHamdMDE(totalN)`. -/
noncomputable def calcHamdMDE (p : Params) (totalN : ℚ) : HamdResult where
  mde := hamdMDE p totalN
  baselineMDE := hamdBaselineMDE p totalN
  effectSize := hamdMDE p totalN / 7
  nClusters := nClusters p totalN
  nTreatmentClusters := nTreatmentClusters p totalN
  nControlClusters := nControlClusters p totalN
  nCompleters := jsRound (nTreatmentPatients p totalN + nControlPatients p totalN)
  varianceReduction := (1 - measurementVarianceMultiplier p) * 100

/-- Source: `nTreatment = nTreatmentClusters * patientsPerCluster` (retention, no attrition). -/
def nTreatment (p : Params) (totalN : ℚ) : ℚ :=
  (nTreatmentClusters p totalN : ℚ) * p.patientsPerCluster

/-- Source: `nControl = nControlClusters * patientsPerCluster`. -/
def nControl (p : Params) (totalN : ℚ) : ℚ :=
  (nControlClusters p totalN : ℚ) * p.patientsPerCluster

/-- Source: `part_000` lines 325-327: `designEffect = (1 + (patientsPerCluster - 1) * iccRetention)
* (1 + clusterSizeCV * clusterSizeCV)`. -/
def retentionDesignEffect (p : Params) : ℚ :=
  (1 + (p.patientsPerCluster - 1) * p.iccRetention) *
    (1 + p.clusterSizeCV * p.clusterSizeCV)

/-- Source: `baseSE = Math.sqrt(p0 * (1 - p0) * (1/nTreatment + 1/nControl))` with `p0 = controlAttrition`. -/
noncomputable def baseSE (p : Params) (totalN : ℚ) : ℝ :=
  Real.sqrt ((p.controlAttrition * (1 - p.controlAttrition) *
    (1 / nTreatment p totalN + 1 / nControl p totalN) : ℚ) : ℝ)

/-- Source: `clusteredSE = baseSE * Math.sqrt(designEffect)`. -/
noncomputable def clusteredSE (p : Params) (totalN : ℚ) : ℝ :=
  baseSE p totalN * Real.sqrt ((retentionDesignEffect p : ℚ) : ℝ)

/-- Source: `adjustedSE = clusteredSE * Math.sqrt(1 - r2Retention)`. -/
noncomputable def adjustedSE (p : Params) (totalN : ℚ) : ℝ :=
  clusteredSE p totalN * Real.sqrt ((1 - p.r2Retention : ℚ) : ℝ)

/-- Source: `survivalSE = adjustedSE / Math.sqrt(survivalEfficiency)`. -/
noncomputable def survivalSE (p : Params) (totalN : ℚ) : ℝ :=
  adjustedSE p totalN / Real.sqrt ((p.survivalEfficiency : ℚ) : ℝ)

/-- Source: `mde = (zAlpha + zBeta) * survivalSE` (as a proportion, before the ×100). -/
noncomputable def retentionMDE (p : Params) (totalN : ℚ) : ℝ :=
  ((zAlpha p.alpha + zBeta p.power : ℚ) : ℝ) * survivalSE p totalN

/-- Source: `part_000` lines 315-353: `calcRetentionMDE(totalN)`. -/
noncomputable def calcRetentionMDE (p : Params) (totalN : ℚ) : RetentionResult where
  mde := retentionMDE p totalN * 100
  controlRate := p.controlAttrition * 100
  treatmentRate := ((p.controlAttrition : ℝ) - retentionMDE p totalN) * 100
  nClusters := nClusters p totalN
  binaryMDE := ((zAlpha p.alpha + zBeta p.power : ℚ) : ℝ) * adjustedSE p totalN * 100

/-- Source: `nObservations = nTreatmentPatients * nFollowups`. -/
def nObservations (p : Params) (totalN : ℚ) : ℚ :=
  nTreatmentPatients p totalN * p.nFollowups

/-- Source: `avgObsPerCluster = nObservations / nTreatmentClusters`. -/
def avgObsPerCluster (p : Params) (totalN : ℚ) : ℚ :=
  nObservations p totalN / (nTreatmentClusters p totalN : ℚ)

/-- Source: `designEffect = 1 + (avgObsPerCluster - 1) * iccClusterCorr`. -/
def iccDesignEffect (p : Params) (totalN : ℚ) : ℚ :=
  1 + (avgObsPerCluster p totalN - 1) * p.iccClusterCorr

/-- Source: `nEffective = nObservations / designEffect`. -/
def nEffective (p : Params) (totalN : ℚ) : ℚ :=
  nObservations p totalN / iccDesignEffect p totalN

/-- Source: `seIcc = (1 - expectedIcc * expectedIcc) * Math.sqrt(2 / (nEffective - 1))`. -/
noncomputable def seIcc (p : Params) (totalN : ℚ) : ℝ :=
  ((1 - p.expectedIcc * p.expectedIcc : ℚ) : ℝ) *
    Real.sqrt ((2 / (nEffective p totalN - 1) : ℚ) : ℝ)

/-- Source: `ciHalfWidth = 1.96 * seIcc`. -/
noncomputable def ciHalfWidth (p : Params) (totalN : ℚ) : ℝ :=
  1.96 * seIcc p totalN

/-- Source: `lowerBound = expectedIcc - ciHalfWidth`. -/
noncomputable def lowerBound (p : Params) (totalN : ℚ) : ℝ :=
  (p.expectedIcc : ℝ) - ciHalfWidth p totalN

/-- Source: `part_000` lines 357-402: `calcIccValidation(totalN)` (treatment arm only). -/
noncomputable def calcIccValidation (p : Params) (totalN : ℚ) : IccValidationResult where
  nTreatmentPatients := jsRound (nTreatmentPatients p totalN)
  nTreatmentClusters := nTreatmentClusters p totalN
  nObservations := jsRound (nObservations p totalN)
  nEffective := jsRound (nEffective p totalN)
  seIcc := seIcc p totalN
  ciHalfWidth := ciHalfWidth p totalN
  lowerBound := lowerBound p totalN
  upperBound := (p.expectedIcc : ℝ) + ciHalfWidth p totalN
  canRuleOutPoor := lowerBound p totalN > (p.targetIcc : ℝ)

/-- Source: `part_000` lines 405-423: the `powerData` sweep `for (let n = 400; n <= 1300; n += 50)`. -/
noncomputable def powerData (p : Params) : List CurvePoint :=
  (forRange 400 1300 50).map (fun n =>
    { n := n
      clusters := (calcHamdMDE p (n : ℚ)).nClusters
      hamdMDE := (calcHamdMDE p (n : ℚ)).mde
      hamdBaselineMDE := (calcHamdMDE p (n : ℚ)).baselineMDE
      hamdD := (calcHamdMDE p (n : ℚ)).effectSize
      retentionMDE := (calcRetentionMDE p (n : ℚ)).mde
      retentionTreatment := (calcRetentionMDE p (n : ℚ)).treatmentRate
      iccCiWidth := (calcIccValidation p (n : ℚ)).ciHalfWidth * 2
      iccLowerBound := (calcIccValidation p (n : ℚ)).lowerBound })

end P0

open scoped Classical in
/-- Scan loop of `findNForMDE`: return the first list element satisfying the
condition, or the `">1300"` sentinel when the scan is exhausted. -/
noncomputable def findNForMDEAux (cond : ℤ → Prop) : List ℤ → FindNResult
  | [] => FindNResult.exceedsRange
  | n :: rest => if cond n then FindNResult.n n else findNForMDEAux cond rest

/-- Source: `App.js` lines 290-296: `findNForMDE(targetMDE, calcFunc, field)` scans
`for (let n = 400; n <= 1300; n += 10)` and returns the first `n` whose
selected result field is `<= targetMDE`, else the string `">1300"`.  The
`calcFunc`/`field` pair is modelled as one selector function. -/
noncomputable def findNForMDE (p : Params) (targetMDE : ℝ)
    (calcField : Params → ℚ → ℝ) : FindNResult :=
  findNForMDEAux (fun n => calcField p (n : ℚ) ≤ targetMDE) (forRange 400 1300 10)

/-- C5: the z-score lookups return exactly the tabulated values on the
enumerated alpha and power levels, and the documented fallbacks (2.24 and
0.842) on every other rational input; the lookup is total, so it never fails. -/
theorem claim_c5_zscore_lookup :
    zAlpha 0.05 = 1.96 ∧ zAlpha 0.025 = 2.24 ∧ zAlpha 0.01 = 2.58 ∧
    zBeta 0.7 = 0.524 ∧ zBeta 0.75 = 0.674 ∧ zBeta 0.8 = 0.842 ∧
    zBeta 0.85 = 1.036 ∧ zBeta 0.9 = 1.282 ∧
    (∀ a : ℚ, a ≠ 0.05 → a ≠ 0.025 → a ≠ 0.01 → zAlpha a = 2.24) ∧
    (∀ b : ℚ, b ≠ 0.7 → b ≠ 0.75 → b ≠ 0.8 → b ≠ 0.85 → b ≠ 0.9 →
      zBeta b = 0.842) := by
  refine ⟨by norm_num [zAlpha], by norm_num [zAlpha], by norm_num [zAlpha],
    by norm_num [zBeta], by norm_num [zBeta], by norm_num [zBeta],
    by norm_num [zBeta], by norm_num [zBeta], ?_, ?_⟩
  · intro a h1 h2 h3
    simp [zAlpha, h1, h2, h3]
  · intro b h1 h2 h3 h4 h5
    simp [zBeta, h1, h2, h3, h4, h5]

/-- Witness for C5: a non-enumerated alpha and a non-enumerated power hit the
fallback entries. -/
theorem claim_c5_zscore_lookup_witness :
    zAlpha 0.04 = 2.24 ∧ zBeta 0.6 = 0.842 :=
  ⟨claim_c5_zscore_lookup.2.2.2.2.2.2.2.2.1 0.04
      (by norm_num) (by norm_num) (by norm_num),
   claim_c5_zscore_lookup.2.2.2.2.2.2.2.2.2 0.6
      (by norm_num) (by norm_num) (by norm_num) (by norm_num) (by norm_num)⟩

/-- The default configuration with the rasch (reliability-upgrade) model
selected and a perfect sum-score reliability — the input on which the
measurement-model multiplier's division by `sumScoreError = 0` fires. -/
def fullReliabilityRaschParams : Params :=
  { defaultParams with
      measurementModel := MeasurementModel.rasch
      sumScoreReliability := 1 }

/-- C4 (code bug): with the reliability-upgrade model active and
`sumScoreReliability = 1`, the source's division `(sumScoreError - raschError)
/ sumScoreError` is `(0 - 0.09) / 0`; under JavaScript float semantics the
multiplier becomes `NaN` (modelled as `none`), so the claimed guard does not
exist in the code. -/
theorem claim_c4_multiplier_nan_at_full_reliability :
    measurementVarianceMultiplierJS fullReliabilityRaschParams = none := by
  have h : useRasch fullReliabilityRaschParams = true := rfl
  have h2 : 1 - fullReliabilityRaschParams.sumScoreReliability = 0 := by
    norm_num [fullReliabilityRaschParams, defaultParams]
  simp [measurementVarianceMultiplierJS, h, h2]

/-- C3: the clustering design effect used by the `part_000` severity
calculator equals `(1 + (patientsPerCluster * (1 - controlAttrition) - 1) *
iccSeverity) * (1 + clusterSizeCV^2)`; the unequal-cluster-size inflation
factor multiplies the standard design effect (the one `App.js` uses), and the
returned mde is the closed form with that design effect in place. -/
theorem claim_c3_design_effect (p : Params) (totalN : ℚ) :
    P0.hamdDesignEffect p =
      (1 + (p.patientsPerCluster * (1 - p.controlAttrition) - 1) * p.iccHamd) *
        (1 + p.clusterSizeCV ^ 2) ∧
    P0.hamdDesignEffect p = App.hamdDesignEffect p * (1 + p.clusterSizeCV ^ 2) ∧
    (P0.calcHamdMDE p totalN).mde =
      ((zAlpha p.alpha + zBeta p.power : ℚ) : ℝ) *
        Real.sqrt ((2 * (49 * (1 - p.r2Hamd) *
          ((1 + (p.patientsPerCluster * (1 - p.controlAttrition) - 1) * p.iccHamd) *
            (1 + p.clusterSizeCV ^ 2)) * 1.2 / 1.43 *
          measurementVarianceMultiplier p) / P0.nHarmonic p totalN : ℚ) : ℝ) := by
  refine ⟨?_, ?_, ?_⟩
  · unfold P0.hamdDesignEffect P0.clusterSize
    ring
  · unfold P0.hamdDesignEffect P0.clusterSize App.hamdDesignEffect App.clusterSize
    ring
  · show P0.hamdMDE p totalN = _
    unfold P0.hamdMDE
    rw [show (2 * P0.netVariance p / P0.nHarmonic p totalN : ℚ) =
        2 * (49 * (1 - p.r2Hamd) *
          ((1 + (p.patientsPerCluster * (1 - p.controlAttrition) - 1) * p.iccHamd) *
            (1 + p.clusterSizeCV ^ 2)) * 1.2 / 1.43 *
          measurementVarianceMultiplier p) / P0.nHarmonic p totalN from by
      unfold P0.netVariance P0.baseVariance P0.sigma2Adj P0.sigma2
        P0.hamdDesignEffect P0.clusterSize P0.ipcwVIF P0.repeatedMeasuresGain
      ring]

/-- C6: the `binaryMdePercentagePoints` field of `calcRetentionMDE` equals the
`mdePercentagePoints` the same call returns when `survivalEfficiency` is set
to 1 and every other parameter is unchanged. -/
theorem claim_c6_binary_mde_is_unit_efficiency (p : Params) (totalN : ℚ) :
    (App.calcRetentionMDE p totalN).binaryMDE =
      (App.calcRetentionMDE { p with survivalEfficiency := 1 } totalN).mde := by
  show ((zAlpha p.alpha + zBeta p.power : ℚ) : ℝ) * App.adjustedSE p totalN * 100 = _
  show _ = App.retentionMDE { p with survivalEfficiency := 1 } totalN * 100
  unfold App.retentionMDE App.survivalSE App.adjustedSE App.clusteredSE App.baseSE
    App.retentionDesignEffect App.nTreatment App.nControl App.nControlClusters
    App.nTreatmentClusters App.nClusters App.treatmentProportion
  norm_num [Real.sqrt_one]

/-- C1: at the configuration patientsPerCluster=10, treatmentRatio=3,
controlAttrition=0.30, iccSeverity=0.04, r2Severity=0.35, power=0.80,
alpha=0.025, baseline (sum-score) model and totalN=1000, `calcHamdMDE`
returns nClusters=100, nTreatmentClusters=75, nControlClusters=25,
nCompleters=700, and its mde is exactly
`(zAlpha + zBeta) * sqrt(2 * netVariance / nHarmonic)` with severitySD=7,
ipcwVIF=1.2, repeatedMeasuresGain=1.43 and nHarmonic the harmonic mean of
the 525 treatment and 175 control completers. -/
theorem claim_c1_hamd_end_to_end :
    (App.calcHamdMDE defaultParams 1000).nClusters = 100 ∧
    (App.calcHamdMDE defaultParams 1000).nTreatmentClusters = 75 ∧
    (App.calcHamdMDE defaultParams 1000).nControlClusters = 25 ∧
    (App.calcHamdMDE defaultParams 1000).nCompleters = 700 ∧
    (App.calcHamdMDE defaultParams 1000).mde =
      (2.24 + 0.842 : ℝ) *
        Real.sqrt (2 * ((7:ℝ) ^ 2 * (1 - 0.35) * (1 + (10 * (1 - 0.3) - 1) * 0.04) *
          1.2 / 1.43) / (2 * 525 * 175 / (525 + 175))) := by
  have hK : App.nClusters defaultParams 1000 = 100 := by
    norm_num [App.nClusters, jsRound, defaultParams]
  have hT : App.nTreatmentClusters defaultParams 1000 = 75 := by
    unfold App.nTreatmentClusters App.treatmentProportion
    rw [hK]
    norm_num [jsRound, defaultParams]
  have hC : App.nControlClusters defaultParams 1000 = 25 := by
    unfold App.nControlClusters
    rw [hK, hT]
    norm_num
  have hTP : App.nTreatmentPatients defaultParams 1000 = 525 := by
    unfold App.nTreatmentPatients
    rw [hT]
    norm_num [defaultParams]
  have hCP : App.nControlPatients defaultParams 1000 = 175 := by
    unfold App.nControlPatients
    rw [hC]
    norm_num [defaultParams]
  have hH : App.nHarmonic defaultParams 1000 = 525 / 2 := by
    unfold App.nHarmonic
    rw [hTP, hCP]
    norm_num
  have hmult : measurementVarianceMultiplier defaultParams = 1 := by
    simp [measurementVarianceMultiplier, useRasch, useMFRM, defaultParams]
  have hV : App.netVariance defaultParams = 9114 / 275 := by
    unfold App.netVariance App.baseVariance App.sigma2Adj App.sigma2
      App.hamdDesignEffect App.clusterSize App.ipcwVIF App.repeatedMeasuresGain
    rw [hmult]
    norm_num [defaultParams]
  refine ⟨hK, hT, hC, ?_, ?_⟩
  · show jsRound (App.nTreatmentPatients defaultParams 1000 +
      App.nControlPatients defaultParams 1000) = 700
    norm_num [hTP, hCP, jsRound]
  · show App.hamdMDE defaultParams 1000 = _
    unfold App.hamdMDE
    rw [hV, hH]
    have hz : zAlpha defaultParams.alpha + zBeta defaultParams.power = 1541 / 500 := by
      norm_num [zAlpha, zBeta, defaultParams]
    rw [hz]
    have harg : (2 * (9114 / 275) / (525 / 2) : ℚ) = 12152 / 48125 := by norm_num
    rw [harg]
    have hr : ((12152 / 48125 : ℚ) : ℝ) =
        2 * ((7:ℝ) ^ 2 * (1 - 0.35) * (1 + (10 * (1 - 0.3) - 1) * 0.04) * 1.2 / 1.43) /
          (2 * 525 * 175 / (525 + 175)) := by
      push_cast
      norm_num
    rw [hr]
    push_cast
    norm_num

/-- C7: whenever `expectedIcc ≤ targetIcc` (with `expectedIcc` in its valid
`(0,1)` domain, here `expectedIcc² ≤ 1`), `calcIccValidation` returns
`canRuleOutPoor = false` for every totalN; the call is a total function, so
the infeasible design is an ordinary output, not a failure. -/
theorem claim_c7_icc_infeasible (p : Params) (totalN : ℚ)
    (h : p.expectedIcc ≤ p.targetIcc) (he : p.expectedIcc ^ 2 ≤ 1) :
    ¬ (App.calcIccValidation p totalN).canRuleOutPoor := by
  show ¬ (App.lowerBound p totalN > (p.targetIcc : ℝ))
  rw [not_lt]
  unfold App.lowerBound App.ciHalfWidth App.seIcc
  have he' : ((p.expectedIcc : ℝ)) * (p.expectedIcc : ℝ) ≤ 1 := by
    rw [pow_two] at he
    exact_mod_cast he
  have h1 : (0:ℝ) ≤ ((1 - p.expectedIcc * p.expectedIcc : ℚ) : ℝ) := by
    push_cast
    linarith
  have h2 : (0:ℝ) ≤
      Real.sqrt (((2 / (App.nEffective p totalN - 1) : ℚ) : ℝ)) :=
    Real.sqrt_nonneg _
  have h3 : ((p.expectedIcc : ℝ)) ≤ (p.targetIcc : ℝ) := by exact_mod_cast h
  have h4 := mul_nonneg h1 h2
  linarith

/-- The default configuration with `expectedIcc` lowered to the target
threshold, an infeasible reliability-validation design. -/
def infeasibleIccParams : Params := { defaultParams with expectedIcc := 0.75 }

/-- Witness for C7 at a concrete infeasible configuration and totalN = 1000. -/
theorem claim_c7_icc_infeasible_witness :
    infeasibleIccParams.expectedIcc ≤ infeasibleIccParams.targetIcc ∧
      ¬ (App.calcIccValidation infeasibleIccParams 1000).canRuleOutPoor :=
  ⟨by norm_num [infeasibleIccParams, defaultParams],
   claim_c7_icc_infeasible infeasibleIccParams 1000
     (by norm_num [infeasibleIccParams, defaultParams])
     (by norm_num [infeasibleIccParams, defaultParams])⟩

/-- C10: with `clusterSizeCV = 0` the two implementations of the engine
(`App.js` and `part_000`) return identical `calcHamdMDE`, `calcRetentionMDE`
and `calcIccValidation` results: their only formula difference is the
`(1 + clusterSizeCV²)` design-effect factor of the second implementation,
which is 1 at `clusterSizeCV = 0`. -/
theorem claim_c10_implementations_agree (p : Params) (totalN : ℚ)
    (hcv : p.clusterSizeCV = 0) :
    App.calcHamdMDE p totalN = P0.calcHamdMDE p totalN ∧
    App.calcRetentionMDE p totalN = P0.calcRetentionMDE p totalN ∧
    App.calcIccValidation p totalN = P0.calcIccValidation p totalN := by
  have hde : App.hamdDesignEffect p = P0.hamdDesignEffect p := by
    unfold App.hamdDesignEffect P0.hamdDesignEffect App.clusterSize P0.clusterSize
    rw [hcv]
    ring
  have hbase : App.baseVariance p = P0.baseVariance p := by
    unfold App.baseVariance P0.baseVariance App.sigma2Adj P0.sigma2Adj
      App.sigma2 P0.sigma2 App.ipcwVIF P0.ipcwVIF
      App.repeatedMeasuresGain P0.repeatedMeasuresGain
    rw [show App.hamdDesignEffect p = P0.hamdDesignEffect p from hde]
  have hnet : App.netVariance p = P0.netVariance p := by
    unfold App.netVariance P0.netVariance
    rw [hbase]
  have hharm : App.nHarmonic p totalN = P0.nHarmonic p totalN := rfl
  have hrde : App.retentionDesignEffect p = P0.retentionDesignEffect p := by
    unfold App.retentionDesignEffect P0.retentionDesignEffect
    rw [hcv]
    ring
  have hadj : App.adjustedSE p totalN = P0.adjustedSE p totalN := by
    unfold App.adjustedSE P0.adjustedSE App.clusteredSE P0.clusteredSE
    rw [hrde]
    rfl
  refine ⟨?_, ?_, ?_⟩
  · ext
    · show App.hamdMDE p totalN = P0.hamdMDE p totalN
      unfold App.hamdMDE P0.hamdMDE
      rw [hnet, hharm]
    · show App.hamdBaselineMDE p totalN = P0.hamdBaselineMDE p totalN
      unfold App.hamdBaselineMDE P0.hamdBaselineMDE
      rw [hbase, hharm]
    · show App.hamdMDE p totalN / 7 = P0.hamdMDE p totalN / 7
      unfold App.hamdMDE P0.hamdMDE
      rw [hnet, hharm]
    · rfl
    · rfl
    · rfl
    · rfl
    · rfl
  · ext
    · show App.retentionMDE p totalN * 100 = P0.retentionMDE p totalN * 100
      unfold App.retentionMDE P0.retentionMDE App.survivalSE P0.survivalSE
      rw [hadj]
    · rfl
    · show ((p.controlAttrition : ℝ) - App.retentionMDE p totalN) * 100 =
        ((p.controlAttrition : ℝ) - P0.retentionMDE p totalN) * 100
      unfold App.retentionMDE P0.retentionMDE App.survivalSE P0.survivalSE
      rw [hadj]
    · rfl
    · show ((zAlpha p.alpha + zBeta p.power : ℚ) : ℝ) * App.adjustedSE p totalN * 100 =
        ((zAlpha p.alpha + zBeta p.power : ℚ) : ℝ) * P0.adjustedSE p totalN * 100
      rw [hadj]
  · rfl

/-- Witness for C10 at the default configuration (clusterSizeCV = 0) and
totalN = 1000. -/
theorem claim_c10_implementations_agree_witness :
    defaultParams.clusterSizeCV = 0 ∧
      App.calcHamdMDE defaultParams 1000 = P0.calcHamdMDE defaultParams 1000 :=
  ⟨rfl, (claim_c10_implementations_agree defaultParams 1000 rfl).1⟩

/-- For a positive step the loop values are strictly increasing (any fuel). -/
theorem forRangeAux_chain (nMax step : ℤ) (hstep : 0 < step) :
    ∀ fuel : ℕ, ∀ n : ℤ,
      List.Chain' (fun a b : ℤ => a < b) (forRangeAux nMax step fuel n) := by
  intro fuel
  induction fuel with
  | zero => intro n; exact List.chain'_nil
  | succ f ih =>
    intro n
    unfold forRangeAux
    split
    · rw [List.chain'_cons']
      refine ⟨?_, ih (n + step)⟩
      intro b hb
      have hhead : ∀ m : ℤ, b ∈ (forRangeAux nMax step f m).head? → b = m := by
        intro m hm
        cases f with
        | zero => simp [forRangeAux] at hm
        | succ f2 =>
          unfold forRangeAux at hm
          by_cases h2 : m ≤ nMax
          · rw [if_pos h2] at hm
            simp at hm
            exact hm.symm
          · rw [if_neg h2] at hm
            simp at hm
      rw [hhead (n + step) hb]
      linarith
    · exact List.chain'_nil

/-- The loop values of `for (n = n0; n <= nMax; n += step)` are strictly
increasing for a positive step. -/
theorem forRange_chain (n0 nMax step : ℤ) (hstep : 0 < step) :
    List.Chain' (fun a b : ℤ => a < b) (forRange n0 nMax step) :=
  forRangeAux_chain nMax step hstep _ n0

/-- C8: sweeping the default range nMin=400, nMax=1300, step=50, `powerData`
produces exactly 19 CurvePoints whose totalN values are 400, 450, …, 1300 in
strictly ascending order, for every parameter configuration. -/
theorem claim_c8_power_data_grid (p : Params) :
    (App.powerData p).length = 19 ∧
    (App.powerData p).map CurvePoint.n =
      [400, 450, 500, 550, 600, 650, 700, 750, 800, 850, 900, 950, 1000,
       1050, 1100, 1150, 1200, 1250, 1300] ∧
    List.Chain' (fun a b => a < b) ((App.powerData p).map CurvePoint.n) := by
  have hmap : (App.powerData p).map CurvePoint.n = forRange 400 1300 50 := by
    unfold App.powerData
    rw [List.map_map]
    have : (CurvePoint.n ∘ fun n : ℤ =>
        ({ n := n
           clusters := (App.calcHamdMDE p (n : ℚ)).nClusters
           hamdMDE := (App.calcHamdMDE p (n : ℚ)).mde
           hamdBaselineMDE := (App.calcHamdMDE p (n : ℚ)).baselineMDE
           hamdD := (App.calcHamdMDE p (n : ℚ)).effectSize
           retentionMDE := (App.calcRetentionMDE p (n : ℚ)).mde
           retentionTreatment := (App.calcRetentionMDE p (n : ℚ)).treatmentRate
           iccCiWidth := (App.calcIccValidation p (n : ℚ)).ciHalfWidth * 2
           iccLowerBound := (App.calcIccValidation p (n : ℚ)).lowerBound } : CurvePoint)) =
        fun n : ℤ => n := rfl
    rw [this, List.map_id']
  have hrange : forRange 400 1300 50 =
      [400, 450, 500, 550, 600, 650, 700, 750, 800, 850, 900, 950, 1000,
       1050, 1100, 1150, 1200, 1250, 1300] := by decide
  refine ⟨?_, ?_, ?_⟩
  · have := congrArg List.length hmap
    rw [List.length_map] at this
    rw [this, hrange]
    rfl
  · rw [hmap, hrange]
  · rw [hmap]
    exact forRange_chain 400 1300 50 (by norm_num)

/-- First-satisfier behaviour of the scan loop: if no element satisfies the
condition, the sentinel is returned. -/
theorem findNForMDEAux_exceeds (cond : ℤ → Prop) :
    ∀ l : List ℤ, (∀ n ∈ l, ¬ cond n) →
      findNForMDEAux cond l = FindNResult.exceedsRange := by
  intro l
  induction l with
  | nil => intro _; rfl
  | cons a rest ih =>
    intro h
    unfold findNForMDEAux
    rw [if_neg (h a (List.mem_cons_self a rest))]
    exact ih fun n hn => h n (List.mem_cons_of_mem a hn)

/-- Converse: when the scan loop returns the sentinel, no element of the list
satisfied the condition. -/
theorem findNForMDEAux_exceeds_rev (cond : ℤ → Prop) :
    ∀ l : List ℤ, findNForMDEAux cond l = FindNResult.exceedsRange →
      ∀ n ∈ l, ¬ cond n := by
  intro l
  induction l with
  | nil => intro _ n hn; cases hn
  | cons a rest ih =>
    intro h n hn
    by_cases ha : cond a
    · rw [findNForMDEAux, if_pos ha] at h
      cases h
    · rw [findNForMDEAux, if_neg ha] at h
      rcases List.mem_cons.mp hn with hh | hh
      · exact hh ▸ ha
      · exact ih h n hh

/-- First-satisfier behaviour of the scan loop on a `≤`-sorted list: a
returned element satisfies the condition, belongs to the list, and is least
among all satisfying elements. -/
theorem findNForMDEAux_found (cond : ℤ → Prop) :
    ∀ l : List ℤ, List.Pairwise (fun a b : ℤ => a ≤ b) l →
      ∀ m : ℤ, findNForMDEAux cond l = FindNResult.n m →
        m ∈ l ∧ cond m ∧ ∀ n ∈ l, cond n → m ≤ n := by
  intro l
  induction l with
  | nil => intro _ m hm; cases hm
  | cons a rest ih =>
    intro hp m hm
    rw [List.pairwise_cons] at hp
    by_cases ha : cond a
    · rw [findNForMDEAux, if_pos ha] at hm
      cases hm
      refine ⟨List.mem_cons_self a rest, ha, ?_⟩
      intro n hn _
      rcases List.mem_cons.mp hn with h | h
      · exact h ▸ le_refl a
      · exact hp.1 n h
    · rw [findNForMDEAux, if_neg ha] at hm
      obtain ⟨hmem, hcond, hleast⟩ := ih hp.2 m hm
      refine ⟨List.mem_cons_of_mem a hmem, hcond, ?_⟩
      intro n hn hnc
      rcases List.mem_cons.mp hn with h | h
      · exact absurd (h ▸ hnc) ha
      · exact hleast n h hnc

/-- C9: `findNForMDE` scans N = 400, 410, …, 1300 ascending; when it returns a
grid point it is the smallest N on the grid whose selected MDE value is ≤ the
target, and when no N in range satisfies the condition it returns the
out-of-range sentinel (the value ">1300") rather than failing. -/
theorem claim_c9_find_n_for_mde (p : Params) (targetMDE : ℝ)
    (calcField : Params → ℚ → ℝ) :
    ((∀ n ∈ forRange 400 1300 10, ¬ calcField p (n : ℚ) ≤ targetMDE) →
      findNForMDE p targetMDE calcField = FindNResult.exceedsRange) ∧
    (findNForMDE p targetMDE calcField = FindNResult.exceedsRange →
      ∀ n ∈ forRange 400 1300 10, ¬ calcField p (n : ℚ) ≤ targetMDE) ∧
    (∀ m : ℤ, findNForMDE p targetMDE calcField = FindNResult.n m →
      m ∈ forRange 400 1300 10 ∧ calcField p (m : ℚ) ≤ targetMDE ∧
        ∀ n ∈ forRange 400 1300 10, calcField p (n : ℚ) ≤ targetMDE → m ≤ n) := by
  refine ⟨?_, ?_, ?_⟩
  · intro h
    exact findNForMDEAux_exceeds _ _ h
  · intro h
    exact findNForMDEAux_exceeds_rev _ _ h
  · intro m hm
    have hchain : List.Chain' (fun a b : ℤ => a < b) (forRange 400 1300 10) :=
      forRange_chain 400 1300 10 (by norm_num)
    have hpair : List.Pairwise (fun a b : ℤ => a ≤ b) (forRange 400 1300 10) :=
      (List.chain'_iff_pairwise.mp hchain).imp le_of_lt
    exact findNForMDEAux_found _ _ hpair m hm

/-- Witness for C9: with a selector that is constantly 1 and target 0, no grid
point satisfies the condition and the sentinel is returned. -/
theorem claim_c9_find_n_for_mde_witness :
    findNForMDE defaultParams 0 (fun _ _ => 1) = FindNResult.exceedsRange :=
  (claim_c9_find_n_for_mde defaultParams 0 (fun _ _ => 1)).1
    (fun n _ => by norm_num)

/-- The rounding used throughout is monotone. -/
theorem jsRound_mono {x y : ℚ} (h : x ≤ y) : jsRound x ≤ jsRound y :=
  Int.floor_mono (by linarith)

/-- For a proportion q ∈ [0,1], the control count a - round(a·q) is monotone
in the integer a (rounding moves by at most one per unit step of a). -/
theorem sub_jsRound_mono {q : ℚ} (h0 : 0 ≤ q) (h1 : q ≤ 1) {a b : ℤ}
    (hab : a ≤ b) :
    a - jsRound ((a : ℚ) * q) ≤ b - jsRound ((b : ℚ) * q) := by
  obtain ⟨k, rfl⟩ := Int.le.dest hab
  clear hab
  induction k with
  | zero => norm_num
  | succ m ihm =>
    have hc : ((m + 1 : ℕ) : ℤ) = (m : ℤ) + 1 := by push_cast; ring
    have hstep : jsRound (((a + ((m + 1 : ℕ) : ℤ) : ℤ) : ℚ) * q) ≤
        jsRound (((a + ((m : ℕ) : ℤ) : ℤ) : ℚ) * q) + 1 := by
      unfold jsRound
      have hle : ((a + ((m + 1 : ℕ) : ℤ) : ℤ) : ℚ) * q + 1/2 ≤
          ((a + ((m : ℕ) : ℤ) : ℤ) : ℚ) * q + 1/2 + 1 := by
        push_cast
        nlinarith
      calc ⌊((a + ((m + 1 : ℕ) : ℤ) : ℤ) : ℚ) * q + 1/2⌋ ≤
            ⌊((a + ((m : ℕ) : ℤ) : ℤ) : ℚ) * q + 1/2 + 1⌋ := Int.floor_mono hle
        _ = ⌊((a + ((m : ℕ) : ℤ) : ℤ) : ℚ) * q + 1/2⌋ + 1 := Int.floor_add_one _
    linarith

/-- The harmonic-mean term 2xy/(x+y) is monotone in both arguments over the
positives. -/
theorem harmonicMean_mono {x1 x2 y1 y2 : ℚ} (hx1 : 0 < x1) (hy1 : 0 < y1)
    (hx : x1 ≤ x2) (hy : y1 ≤ y2) :
    2 * x1 * y1 / (x1 + y1) ≤ 2 * x2 * y2 / (x2 + y2) := by
  have hx2 : 0 < x2 := lt_of_lt_of_le hx1 hx
  have hy2 : 0 < y2 := lt_of_lt_of_le hy1 hy
  rw [div_le_div_iff (by positivity) (by positivity)]
  nlinarith [mul_nonneg (mul_nonneg hx1.le hx2.le) (sub_nonneg.mpr hy),
    mul_nonneg (mul_nonneg hy1.le hy2.le) (sub_nonneg.mpr hx)]

/-- Every value of the alpha lookup is positive. -/
theorem zAlpha_pos (a : ℚ) : 0 < zAlpha a := by
  unfold zAlpha
  split
  · norm_num
  · split
    · norm_num
    · split
      · norm_num
      · norm_num

/-- Every value of the power lookup is positive. -/
theorem zBeta_pos (b : ℚ) : 0 < zBeta b := by
  unfold zBeta
  split
  · norm_num
  · split
    · norm_num
    · split
      · norm_num
      · split
        · norm_num
        · split
          · norm_num
          · norm_num

/-- The cluster count is monotone in totalN. -/
theorem app_nClusters_mono (p : Params) {n1 n2 : ℚ} (h : n1 ≤ n2)
    (hppc : 0 < p.patientsPerCluster) :
    App.nClusters p n1 ≤ App.nClusters p n2 := by
  unfold App.nClusters
  exact jsRound_mono (by gcongr)

/-- The treatment allocation proportion is nonnegative for a positive ratio. -/
theorem treatmentProportion_nonneg (p : Params) (hr : 0 < p.treatmentRatio) :
    0 ≤ App.treatmentProportion p := by
  unfold App.treatmentProportion
  exact div_nonneg hr.le (by linarith)

/-- The treatment allocation proportion is at most one. -/
theorem treatmentProportion_le_one (p : Params) (hr : 0 < p.treatmentRatio) :
    App.treatmentProportion p ≤ 1 := by
  unfold App.treatmentProportion
  rw [div_le_one (by linarith)]
  linarith

/-- The treatment-cluster count is monotone in totalN. -/
theorem app_nTreatmentClusters_mono (p : Params) {n1 n2 : ℚ} (h : n1 ≤ n2)
    (hppc : 0 < p.patientsPerCluster) (hr : 0 < p.treatmentRatio) :
    App.nTreatmentClusters p n1 ≤ App.nTreatmentClusters p n2 := by
  unfold App.nTreatmentClusters
  apply jsRound_mono
  have hK := app_nClusters_mono p h hppc
  exact mul_le_mul_of_nonneg_right (by exact_mod_cast hK)
    (treatmentProportion_nonneg p hr)

/-- The control-cluster count is monotone in totalN. -/
theorem app_nControlClusters_mono (p : Params) {n1 n2 : ℚ} (h : n1 ≤ n2)
    (hppc : 0 < p.patientsPerCluster) (hr : 0 < p.treatmentRatio) :
    App.nControlClusters p n1 ≤ App.nControlClusters p n2 := by
  unfold App.nControlClusters App.nTreatmentClusters
  exact sub_jsRound_mono (treatmentProportion_nonneg p hr)
    (treatmentProportion_le_one p hr) (app_nClusters_mono p h hppc)

/-- C2: for every fixed parameter configuration (positive cluster size and
allocation ratio, attrition below 1) and all totalN1 ≤ totalN2 whose designs
have at least one treatment and one control cluster each, the severity mde at
totalN2 is at most the mde at totalN1 — mde is monotonically non-increasing
in totalN. -/
theorem claim_c2_mde_monotone (p : Params) (n1 n2 : ℚ) (h12 : n1 ≤ n2)
    (hppc : 0 < p.patientsPerCluster) (hr : 0 < p.treatmentRatio)
    (hattr : p.controlAttrition < 1)
    (hT1 : 1 ≤ (App.calcHamdMDE p n1).nTreatmentClusters)
    (hC1 : 1 ≤ (App.calcHamdMDE p n1).nControlClusters)
    (hT2 : 1 ≤ (App.calcHamdMDE p n2).nTreatmentClusters)
    (hC2 : 1 ≤ (App.calcHamdMDE p n2).nControlClusters) :
    (App.calcHamdMDE p n2).mde ≤ (App.calcHamdMDE p n1).mde := by
  have hT1' : 1 ≤ App.nTreatmentClusters p n1 := hT1
  have hC1' : 1 ≤ App.nControlClusters p n1 := hC1
  show App.hamdMDE p n2 ≤ App.hamdMDE p n1
  have hc : (0:ℚ) < p.patientsPerCluster * (1 - p.controlAttrition) :=
    mul_pos hppc (by linarith)
  have castT1 : (0:ℚ) < (App.nTreatmentClusters p n1 : ℚ) := by
    exact_mod_cast lt_of_lt_of_le Int.zero_lt_one hT1'
  have castC1 : (0:ℚ) < (App.nControlClusters p n1 : ℚ) := by
    exact_mod_cast lt_of_lt_of_le Int.zero_lt_one hC1'
  have hTP1 : 0 < App.nTreatmentPatients p n1 := by
    unfold App.nTreatmentPatients
    rw [mul_assoc]
    exact mul_pos castT1 hc
  have hCP1 : 0 < App.nControlPatients p n1 := by
    unfold App.nControlPatients
    rw [mul_assoc]
    exact mul_pos castC1 hc
  have hTPm : App.nTreatmentPatients p n1 ≤ App.nTreatmentPatients p n2 := by
    unfold App.nTreatmentPatients
    rw [mul_assoc, mul_assoc]
    refine mul_le_mul_of_nonneg_right ?_ hc.le
    exact_mod_cast app_nTreatmentClusters_mono p h12 hppc hr
  have hCPm : App.nControlPatients p n1 ≤ App.nControlPatients p n2 := by
    unfold App.nControlPatients
    rw [mul_assoc, mul_assoc]
    refine mul_le_mul_of_nonneg_right ?_ hc.le
    exact_mod_cast app_nControlClusters_mono p h12 hppc hr
  have hHm : App.nHarmonic p n1 ≤ App.nHarmonic p n2 := by
    unfold App.nHarmonic
    exact harmonicMean_mono hTP1 hCP1 hTPm hCPm
  have hH1 : 0 < App.nHarmonic p n1 := by
    unfold App.nHarmonic
    exact div_pos (by positivity) (by linarith)
  have hH2 : 0 < App.nHarmonic p n2 := lt_of_lt_of_le hH1 hHm
  have hz : (0:ℚ) < zAlpha p.alpha + zBeta p.power :=
    add_pos (zAlpha_pos _) (zBeta_pos _)
  unfold App.hamdMDE
  by_cases hV : 0 ≤ App.netVariance p
  · refine mul_le_mul_of_nonneg_left ?_ (by exact_mod_cast hz.le)
    apply Real.sqrt_le_sqrt
    have harg : (2 * App.netVariance p / App.nHarmonic p n2 : ℚ) ≤
        2 * App.netVariance p / App.nHarmonic p n1 := by
      rw [div_le_div_iff hH2 hH1]
      exact mul_le_mul_of_nonneg_left hHm (by linarith)
    exact_mod_cast harg
  · push_neg at hV
    have harg2 : (2 * App.netVariance p / App.nHarmonic p n2 : ℚ) ≤ 0 :=
      div_nonpos_iff.mpr (Or.inr ⟨by linarith, hH2.le⟩)
    have hzero : Real.sqrt ((2 * App.netVariance p / App.nHarmonic p n2 : ℚ) : ℝ) = 0 := by
      rw [Real.sqrt_eq_zero_of_nonpos]
      exact_mod_cast harg2
    rw [hzero, mul_zero]
    exact mul_nonneg (by exact_mod_cast hz.le) (Real.sqrt_nonneg _)

/-- Witness for C2 at the default configuration with totalN going from 400 to
1000. -/
theorem claim_c2_mde_monotone_witness :
    (0:ℚ) < 10 ∧ (400:ℚ) ≤ 1000 ∧
      (App.calcHamdMDE defaultParams 1000).mde ≤
        (App.calcHamdMDE defaultParams 400).mde :=
  ⟨by norm_num, by norm_num,
   claim_c2_mde_monotone defaultParams 400 1000 (by norm_num)
     (by norm_num [defaultParams]) (by norm_num [defaultParams])
     (by norm_num [defaultParams])
     (by norm_num [App.calcHamdMDE, App.nTreatmentClusters, App.nClusters,
       App.treatmentProportion, jsRound, defaultParams])
     (by norm_num [App.calcHamdMDE, App.nControlClusters, App.nTreatmentClusters,
       App.nClusters, App.treatmentProportion, jsRound, defaultParams])
     (by norm_num [App.calcHamdMDE, App.nTreatmentClusters, App.nClusters,
       App.treatmentProportion, jsRound, defaultParams])
     (by norm_num [App.calcHamdMDE, App.nControlClusters, App.nTreatmentClusters,
       App.nClusters, App.treatmentProportion, jsRound, defaultParams])⟩
